import Mathlib

/-!
Shallow embedding of the two EDI decoders of src/script.js (classes
EDI837Parser and EDI835Parser) and proofs about the claims of the
specification. JS strings are Lean `String`s, positional element access
(`elements[i]`, which is `undefined` past the end of the array) is
`Option String`, and the string methods used by the source (`split`,
`trim`, the three line-ending `replace`s) are re-implemented by structural
recursion on the character list so that every definition evaluates by
kernel reduction. Mutable instance state (`this.parsedData`, the
`current*` context pointers of `parseSegments`) becomes an explicit state
record threaded through a fold over the segment list; JS object aliasing
(the current claim/subscriber/payment held in a local variable is the same
object as the one already pushed into a list of the output tree) is
modelled by keeping the context pointers as indices into those lists and
mutating through the index.
-/

namespace EDI

/-- Whitespace test used by the modelled `trim` (space, tab, CR, LF). -/
def isWS (c : Char) : Bool := c = ' ' || c = '\t' || c = '\n' || c = '\r'

/-- Model of `String.prototype.trim`: drop whitespace from both ends. -/
def trimL (l : List Char) : List Char :=
  ((l.dropWhile isWS).reverse.dropWhile isWS).reverse

/-- Model of `data.replace(/\r\n/g, '\n')`: every CRLF pair becomes one LF. -/
def replaceCRLF : List Char → List Char
  | '\r' :: '\n' :: rest => '\n' :: replaceCRLF rest
  | c :: rest => c :: replaceCRLF rest
  | [] => []

/-- Model of `.replace(/\r/g, '\n')`: every CR becomes LF. -/
def replaceCR (l : List Char) : List Char :=
  l.map (fun c => if c = '\r' then '\n' else c)

/-- Model of `.replace(/\n/g, '')`: every LF is removed. -/
def removeLF (l : List Char) : List Char :=
  l.filter (fun c => c ≠ '\n')

/-- `cleanData` (identical in both parser classes): normalize line endings
away, then trim. -/
def cleanData (data : String) : String :=
  ⟨trimL (removeLF (replaceCR (replaceCRLF data.data)))⟩

/-- Accumulator-style splitter with JS `String.prototype.split(sep)`
semantics: `""` splits to `[""]`, a trailing separator yields a trailing
empty piece. -/
def splitOnAux (sep : Char) : List Char → List Char → List (List Char)
  | [], acc => [acc.reverse]
  | c :: cs, acc =>
    if c = sep then acc.reverse :: splitOnAux sep cs []
    else splitOnAux sep cs (c :: acc)

/-- Model of `s.split(sep)` for a one-character separator. -/
def splitChar (sep : Char) (s : String) : List String :=
  (splitOnAux sep s.data []).map (fun l => ⟨l⟩)

/-- Segment list built by `parse` in both classes: split the cleaned data
on the segment delimiter `~`, trim each piece, keep the non-empty ones. -/
def splitSegments (s : String) : List String :=
  ((splitChar '~' s).map (fun seg => (⟨trimL seg.data⟩ : String))).filter
    (fun seg => 0 < seg.length)

/-- Element list of one segment: `segment.split('*')`. -/
def elems (segment : String) : List String := splitChar '*' segment

/-- JS positional element access: `elements[i]` is `undefined` past the
end of the array. -/
def elem (es : List String) (i : Nat) : Option String := es.get? i

/-- In-place update of the element at an index (no effect when the index
is out of range); used to model mutation through an aliased list entry. -/
def modifyIdx (f : α → α) : Nat → List α → List α
  | _, [] => []
  | 0, a :: l => f a :: l
  | n + 1, a :: l => a :: modifyIdx f n l

/-- In-place update of the last element of a list, modelling
`list[list.length - 1].field = v`. -/
def modifyLast (f : α → α) : List α → List α
  | [] => []
  | [a] => [f a]
  | a :: b :: l => a :: modifyLast f (b :: l)

/-- ISA record built by `parseISA` (identical field layout in both
classes). -/
structure Interchange where
  authorizationQualifier : Option String
  authorizationInfo : Option String
  securityQualifier : Option String
  securityInfo : Option String
  senderQualifier : Option String
  senderId : Option String
  receiverQualifier : Option String
  receiverId : Option String
  date : Option String
  time : Option String
  repetitionSeparator : Option String
  versionNumber : Option String
  controlNumber : Option String
  acknowledgmentRequested : Option String
  testIndicator : Option String
deriving DecidableEq, Repr

/-- GS record built by `parseGS` (identical in both classes). -/
structure Group where
  functionalCode : Option String
  applicationSender : Option String
  applicationReceiver : Option String
  date : Option String
  time : Option String
  controlNumber : Option String
  responsibleAgency : Option String
  version : Option String
deriving DecidableEq, Repr

/-- ST record built by `parseST` (identical in both classes). -/
structure TransactionSet where
  type : Option String
  controlNumber : Option String
  implementationGuide : Option String
deriving DecidableEq, Repr

/-- SE record built by `parseSE`. -/
structure TransactionSetTrailer where
  segmentCount : Option String
  controlNumber : Option String
deriving DecidableEq, Repr

/-- GE record built by `parseGE`. -/
structure FunctionalGroupTrailer where
  transactionSetCount : Option String
  controlNumber : Option String
deriving DecidableEq, Repr

/-- IEA record built by `parseIEA`. -/
structure InterchangeTrailer where
  groupCount : Option String
  controlNumber : Option String
deriving DecidableEq, Repr

/-- REF record built by `parseREF` (identical in both classes). -/
structure Reference where
  qualifierCode : Option String
  referenceId : Option String
  description : Option String
deriving DecidableEq, Repr

/-- PER record built by `parsePER` (identical in both classes). -/
structure Contact where
  contactFunctionCode : Option String
  name : Option String
  communicationNumberQualifier1 : Option String
  communicationNumber1 : Option String
  communicationNumberQualifier2 : Option String
  communicationNumber2 : Option String
deriving DecidableEq, Repr

/-- Address record: N3 creates it, a later N4 mutates the most recently
appended one (city/state/postalCode/countryCode start absent). -/
structure Address where
  addressLine1 : Option String
  addressLine2 : Option String
  city : Option String := none
  state : Option String := none
  postalCode : Option String := none
  countryCode : Option String := none
deriving DecidableEq, Repr

end EDI

namespace EDI837

open EDI

/-- DMG record attached by `parseDMG`. -/
structure Demographics where
  dateFormat : Option String
  birthDate : Option String
  gender : Option String
deriving DecidableEq, Repr

/-- NM1 record built by `parseNM1`; `providerCode`, `referenceIdQualifier`
and `referenceId` start absent and are written by a later PRV through the
current-provider pointer, `demographics` by a later DMG. -/
structure Entity where
  type : Option String
  entityTypeCode : Option String
  entityType : Option String
  lastName : Option String
  firstName : Option String
  middleName : Option String
  namePrefix : Option String
  nameSuffix : Option String
  identificationQualifier : Option String
  identificationCode : Option String
  demographics : Option Demographics := none
  providerCode : Option String := none
  referenceIdQualifier : Option String := none
  referenceId : Option String := none
deriving DecidableEq, Repr

/-- SV1 record built by `parseSV1`. -/
structure Service where
  serviceCode : Option String
  chargeAmount : Option String
  unitOfMeasure : Option String
  serviceUnits : Option String
  placeOfService : Option String
  diagnosisPointer : Option String
deriving DecidableEq, Repr

/-- DTP record built by `parseDTP`. -/
structure DateInfo where
  qualifier : Option String
  formatQualifier : Option String
  date : Option String
deriving DecidableEq, Repr

/-- HI record built by `parseHI` (the first composite split on `:`). -/
structure HealthInfo where
  codeQualifier : Option String
  code : Option String
  dateQualifier : Option String
  date : Option String
deriving DecidableEq, Repr

/-- BHT record built by `parseBHT`. -/
structure BeginningTransaction where
  hierarchicalStructure : Option String
  transactionPurpose : Option String
  referenceId : Option String
  date : Option String
  time : Option String
  transactionType : Option String
deriving DecidableEq, Repr

/-- SBR record built by `parseSBR`. -/
structure SubscriberInfo where
  payerResponsibilitySequence : Option String
  individualRelationshipCode : Option String
  groupOrPolicyNumber : Option String
  groupName : Option String
  insuranceTypeCode : Option String
  coordinationOfBenefitsCode : Option String
deriving DecidableEq, Repr

/-- CLM record built by `parseCLM`; the nested lists start absent and are
created lazily by the first DTP / SV1 / HI that attaches to the claim. -/
structure Claim where
  claimId : Option String
  totalChargeAmount : Option String
  placeOfService : Option String
  providerSignatureIndicator : Option String
  assignmentOfBenefitsIndicator : Option String
  releaseOfInformationIndicator : Option String
  patientSignatureSourceCode : Option String
  services : Option (List Service) := none
  dates : Option (List DateInfo) := none
  healthInfo : Option (List HealthInfo) := none
deriving DecidableEq, Repr

/-- Output tree of the 837 parser (`this.parsedData`). The fields
initialized by `parse` before dispatch are the six plain lists and
`interchange`; `references`, `contacts` and `addresses` are created only
by the first REF / PER / N3 segment, so they are `Option` lists here
(`none` models the absent JS property, and the initial `interchange = {}`
of the source is modelled as `none` since no field of it is set). -/
structure Data where
  interchange : Option Interchange := none
  groups : List Group := []
  claims : List Claim := []
  providers : List Entity := []
  subscribers : List Entity := []
  patients : List Entity := []
  services : List Service := []
  references : Option (List Reference) := none
  contacts : Option (List Contact) := none
  addresses : Option (List Address) := none
  transactionSet : Option TransactionSet := none
  beginningTransaction : Option BeginningTransaction := none
  subscriberInfo : Option SubscriberInfo := none
  serviceLineNumber : Option String := none
  transactionSetTrailer : Option TransactionSetTrailer := none
  functionalGroupTrailer : Option FunctionalGroupTrailer := none
  interchangeTrailer : Option InterchangeTrailer := none
deriving DecidableEq, Repr

/-- Walk state of `parseSegments`: the accumulated tree plus the four
`current*` context pointers, kept as indices into the corresponding lists
of the tree (the source keeps the object itself, which is aliased with
the list entry; mutating through the index models that aliasing). -/
structure State where
  data : Data := {}
  currentClaim : Option Nat := none
  currentSubscriber : Option Nat := none
  currentPatient : Option Nat := none
  currentProvider : Option Nat := none
deriving DecidableEq, Repr

/-- The fixed entity-type code table of `getEntityType`; unknown codes
pass through unchanged, and an absent code stays absent. -/
def getEntityType (code : Option String) : Option String :=
  code.map (fun c =>
    match c with
    | "85" => "billing_provider"
    | "IL" => "subscriber"
    | "QC" => "patient"
    | "PR" => "payer"
    | "82" => "rendering_provider"
    | "77" => "service_facility"
    | "DN" => "referring_provider"
    | _ => c)

/-- `parseISA` of EDI837Parser. -/
def parseISA (es : List String) : Interchange where
  authorizationQualifier := elem es 1
  authorizationInfo := elem es 2
  securityQualifier := elem es 3
  securityInfo := elem es 4
  senderQualifier := elem es 5
  senderId := elem es 6
  receiverQualifier := elem es 7
  receiverId := elem es 8
  date := elem es 9
  time := elem es 10
  repetitionSeparator := elem es 11
  versionNumber := elem es 12
  controlNumber := elem es 13
  acknowledgmentRequested := elem es 14
  testIndicator := elem es 15

/-- `parseGS` of EDI837Parser (the push into `groups` is in the step). -/
def parseGS (es : List String) : Group where
  functionalCode := elem es 1
  applicationSender := elem es 2
  applicationReceiver := elem es 3
  date := elem es 4
  time := elem es 5
  controlNumber := elem es 6
  responsibleAgency := elem es 7
  version := elem es 8

/-- `parseST` of EDI837Parser. -/
def parseST (es : List String) : TransactionSet where
  type := elem es 1
  controlNumber := elem es 2
  implementationGuide := elem es 3

/-- `parseBHT` of EDI837Parser. -/
def parseBHT (es : List String) : BeginningTransaction where
  hierarchicalStructure := elem es 1
  transactionPurpose := elem es 2
  referenceId := elem es 3
  date := elem es 4
  time := elem es 5
  transactionType := elem es 6

/-- `parseNM1` of EDI837Parser. -/
def parseNM1 (es : List String) : Entity where
  type := getEntityType (elem es 1)
  entityTypeCode := elem es 1
  entityType := elem es 2
  lastName := elem es 3
  firstName := elem es 4
  middleName := elem es 5
  namePrefix := elem es 6
  nameSuffix := elem es 7
  identificationQualifier := elem es 8
  identificationCode := elem es 9

/-- `parsePRV` of EDI837Parser, as the mutation it performs on the
provider it is given. -/
def parsePRV (es : List String) (provider : Entity) : Entity :=
  { provider with
    providerCode := elem es 1
    referenceIdQualifier := elem es 2
    referenceId := elem es 3 }

/-- `parseDMG` of EDI837Parser, as the mutation it performs on the entity
it is given. -/
def parseDMG (es : List String) (entity : Entity) : Entity :=
  { entity with
    demographics := some
      { dateFormat := elem es 1
        birthDate := elem es 2
        gender := elem es 3 } }

/-- `parseREF` of EDI837Parser (record only; the lazy list creation and
push are in the step). -/
def parseREF (es : List String) : Reference where
  qualifierCode := elem es 1
  referenceId := elem es 2
  description := elem es 3

/-- `parsePER` of EDI837Parser. -/
def parsePER (es : List String) : Contact where
  contactFunctionCode := elem es 1
  name := elem es 2
  communicationNumberQualifier1 := elem es 3
  communicationNumber1 := elem es 4
  communicationNumberQualifier2 := elem es 5
  communicationNumber2 := elem es 6

/-- `parseCLM` of EDI837Parser (elements 3 and 4 are skipped by the
source). -/
def parseCLM (es : List String) : Claim where
  claimId := elem es 1
  totalChargeAmount := elem es 2
  placeOfService := elem es 5
  providerSignatureIndicator := elem es 6
  assignmentOfBenefitsIndicator := elem es 7
  releaseOfInformationIndicator := elem es 8
  patientSignatureSourceCode := elem es 9

/-- `parseDTP` of EDI837Parser (record only; attaching is in the step). -/
def parseDTP (es : List String) : DateInfo where
  qualifier := elem es 1
  formatQualifier := elem es 2
  date := elem es 3

/-- `parseSV1` of EDI837Parser (element 6 is skipped by the source). -/
def parseSV1 (es : List String) : Service where
  serviceCode := elem es 1
  chargeAmount := elem es 2
  unitOfMeasure := elem es 3
  serviceUnits := elem es 4
  placeOfService := elem es 5
  diagnosisPointer := elem es 7

/-- `parseN3` of EDI837Parser. -/
def parseN3 (es : List String) : Address where
  addressLine1 := elem es 1
  addressLine2 := elem es 2

/-- `parseN4` of EDI837Parser, as the mutation of the last address. -/
def parseN4 (es : List String) (a : Address) : Address :=
  { a with
    city := elem es 1
    state := elem es 2
    postalCode := elem es 3
    countryCode := elem es 4 }

/-- `parseSBR` of EDI837Parser (elements 6 to 8 are skipped). -/
def parseSBR (es : List String) : SubscriberInfo where
  payerResponsibilitySequence := elem es 1
  individualRelationshipCode := elem es 2
  groupOrPolicyNumber := elem es 3
  groupName := elem es 4
  insuranceTypeCode := elem es 5
  coordinationOfBenefitsCode := elem es 9

/-- `parseHI` of EDI837Parser: the second element (a composite) is split
on `:` — `elements[1]?.split(':')[0]` and `[1]` — so an absent element
gives absent qualifier and code, and a composite without `:` gives the
whole field as qualifier and an absent code. -/
def parseHI (es : List String) : HealthInfo where
  codeQualifier := (elem es 1).map (fun s => (splitChar ':' s).headD "")
  code := (elem es 1).bind (fun s => (splitChar ':' s).get? 1)
  dateQualifier := elem es 2
  date := elem es 3

/-- `parseSE` of EDI837Parser. -/
def parseSE (es : List String) : TransactionSetTrailer where
  segmentCount := elem es 1
  controlNumber := elem es 2

/-- `parseGE` of EDI837Parser. -/
def parseGE (es : List String) : FunctionalGroupTrailer where
  transactionSetCount := elem es 1
  controlNumber := elem es 2

/-- `parseIEA` of EDI837Parser. -/
def parseIEA (es : List String) : InterchangeTrailer where
  groupCount := elem es 1
  controlNumber := elem es 2

/-- One iteration of the `switch` of `parseSegments`, given the segment
tag (`elements[0]`) and the element list. The NM1 branch mirrors the
source exactly: the record is pushed (and made current) only when its
resolved `type` is literally `subscriber`, `patient` or `provider`. -/
def dispatch (segmentId : String) (es : List String) (st : State) : State :=
  match segmentId with
  | "ISA" => { st with data := { st.data with interchange := some (parseISA es) } }
  | "GS" => { st with data := { st.data with groups := st.data.groups ++ [parseGS es] } }
  | "ST" => { st with data := { st.data with transactionSet := some (parseST es) } }
  | "BHT" => { st with data := { st.data with beginningTransaction := some (parseBHT es) } }
  | "NM1" =>
    let entity := parseNM1 es
    if entity.type = some "subscriber" then
      { st with
        data := { st.data with subscribers := st.data.subscribers ++ [entity] }
        currentSubscriber := some st.data.subscribers.length }
    else if entity.type = some "patient" then
      { st with
        data := { st.data with patients := st.data.patients ++ [entity] }
        currentPatient := some st.data.patients.length }
    else if entity.type = some "provider" then
      { st with
        data := { st.data with providers := st.data.providers ++ [entity] }
        currentProvider := some st.data.providers.length }
    else st
  | "PRV" =>
    match st.currentProvider with
    | some i => { st with data := { st.data with providers := modifyIdx (parsePRV es) i st.data.providers } }
    | none => st
  | "DMG" =>
    match st.currentSubscriber with
    | some i => { st with data := { st.data with subscribers := modifyIdx (parseDMG es) i st.data.subscribers } }
    | none =>
      match st.currentPatient with
      | some i => { st with data := { st.data with patients := modifyIdx (parseDMG es) i st.data.patients } }
      | none => st
  | "REF" => { st with data := { st.data with references := some (st.data.references.getD [] ++ [parseREF es]) } }
  | "PER" => { st with data := { st.data with contacts := some (st.data.contacts.getD [] ++ [parsePER es]) } }
  | "CLM" =>
    { st with
      data := { st.data with claims := st.data.claims ++ [parseCLM es] }
      currentClaim := some st.data.claims.length }
  | "DTP" =>
    match st.currentClaim with
    | some i =>
      let f := fun c => { c with dates := some (c.dates.getD [] ++ [parseDTP es]) }
      { st with data := { st.data with claims := modifyIdx f i st.data.claims } }
    | none => st
  | "SV1" =>
    let service := parseSV1 es
    let d := { st.data with services := st.data.services ++ [service] }
    match st.currentClaim with
    | some i =>
      let f := fun c => { c with services := some (c.services.getD [] ++ [service]) }
      { st with data := { d with claims := modifyIdx f i d.claims } }
    | none => { st with data := d }
  | "N3" => { st with data := { st.data with addresses := some (st.data.addresses.getD [] ++ [parseN3 es]) } }
  | "N4" => { st with data := { st.data with addresses := st.data.addresses.map (modifyLast (parseN4 es)) } }
  | "SBR" => { st with data := { st.data with subscriberInfo := some (parseSBR es) } }
  | "HI" =>
    match st.currentClaim with
    | some i =>
      let f := fun c => { c with healthInfo := some (c.healthInfo.getD [] ++ [parseHI es]) }
      { st with data := { st.data with claims := modifyIdx f i st.data.claims } }
    | none => st
  | "LX" => { st with data := { st.data with serviceLineNumber := elem es 1 } }
  | "SE" => { st with data := { st.data with transactionSetTrailer := some (parseSE es) } }
  | "GE" => { st with data := { st.data with functionalGroupTrailer := some (parseGE es) } }
  | "IEA" => { st with data := { st.data with interchangeTrailer := some (parseIEA es) } }
  | _ => st

/-- One loop iteration of `parseSegments`: split the segment into
elements, read the tag, dispatch. -/
def step (st : State) (segment : String) : State :=
  dispatch ((elems segment).headD "") (elems segment) st

/-- `parseSegments`: walk the segment list in order, starting from the
freshly initialized tree and null context pointers. -/
def parseSegments (segments : List String) : State :=
  segments.foldl step {}

/-- `parse` of EDI837Parser. The only throw reachable in the method body
is the empty-segments check (the per-segment handlers never throw, and
handler-level errors are caught inside the loop), and it is rewrapped by
the surrounding catch into `Parsing failed: <cause>`. -/
def parse (ediData : String) : Except String Data :=
  let segments := splitSegments (cleanData ediData)
  if segments.isEmpty then
    Except.error "Parsing failed: No valid EDI segments found"
  else
    Except.ok (parseSegments segments).data

/-- Instance-level view of EDI837Parser for the cross-call properties:
the fields `segments` and `parsedData` persist on the object between
calls (`parsedData` starts as the empty object, modelled `none`). -/
structure Instance where
  segments : List String := []
  parsedData : Option Data := none
deriving DecidableEq, Repr

/-- `parse` as a method: it overwrites `this.segments` first, and only
reinitializes `this.parsedData` after the empty check passes, so on the
empty-input path the previous `parsedData` survives on the instance while
the call itself throws. -/
def parseOn (inst : Instance) (ediData : String) : Instance × Except String Data :=
  let segments := splitSegments (cleanData ediData)
  if segments.isEmpty then
    ({ inst with segments := segments }, Except.error "Parsing failed: No valid EDI segments found")
  else
    let st := parseSegments segments
    ({ segments := segments, parsedData := some st.data }, Except.ok st.data)

end EDI837

namespace EDI835

open EDI

/-- TRN record attached by `parseTRN` to the current payment. -/
structure TraceNumber where
  traceTypeCode : Option String
  traceNumber : Option String
  originatingCompanyId : Option String
  referenceId : Option String
deriving DecidableEq, Repr

/-- DTM record built by `parseDTM` (attached to the current payment). -/
structure DateInfo where
  qualifier : Option String
  date : Option String
  time : Option String
  timeCode : Option String
deriving DecidableEq, Repr

/-- SVC record built by `parseSVC`. -/
structure Service where
  serviceCode : Option String
  chargeAmount : Option String
  paymentAmount : Option String
  revenueCode : Option String
  paidUnits : Option String
  bundledUnits : Option String
deriving DecidableEq, Repr

/-- CAS record built by `parseCAS` (a per-claim adjustment). -/
structure CASAdjustment where
  claimAdjustmentGroupCode : Option String
  adjustmentReasonCode1 : Option String
  adjustmentAmount1 : Option String
  adjustmentQuantity1 : Option String
  adjustmentReasonCode2 : Option String
  adjustmentAmount2 : Option String
  adjustmentQuantity2 : Option String
deriving DecidableEq, Repr

/-- NM1 record built by the 835 `parseNM1` (nested under the current
claim). -/
structure Entity where
  entityIdentifierCode : Option String
  entityTypeQualifier : Option String
  lastName : Option String
  firstName : Option String
  middleName : Option String
  namePrefix : Option String
  nameSuffix : Option String
  identificationCodeQualifier : Option String
  identificationCode : Option String
deriving DecidableEq, Repr

/-- MIA record attached by `parseMIA`. -/
structure InpatientAdjudication where
  coveredDays : Option String
  ppsOperatingOutlierAmount : Option String
  lifetimeReserveDays : Option String
  coinsuranceDays : Option String
  nonCoveredDays : Option String
  totalDeductibleAmount : Option String
  totalCoinsuranceAmount : Option String
  accommodationTotalAmount : Option String
  otherMedicalServiceTotalAmount : Option String
deriving DecidableEq, Repr

/-- MOA record attached by `parseMOA`. -/
structure OutpatientAdjudication where
  reimbursementRate : Option String
  hcpcsPayableAmount : Option String
  remarkCode1 : Option String
  remarkCode2 : Option String
  remarkCode3 : Option String
  remarkCode4 : Option String
  remarkCode5 : Option String
  endStageRenalDiseasePaymentAmount : Option String
  nonPayableProfessionalComponentBilledAmount : Option String
deriving DecidableEq, Repr

/-- AMT record built by `parseAMT`. -/
structure Amount where
  amountQualifierCode : Option String
  monetaryAmount : Option String
deriving DecidableEq, Repr

/-- QTY record built by `parseQTY`. -/
structure Quantity where
  quantityQualifier : Option String
  quantity : Option String
deriving DecidableEq, Repr

/-- PLB record built by `parsePLB` (a top-level provider adjustment). -/
structure PLBAdjustment where
  providerIdentifier : Option String
  fiscalPeriodDate : Option String
  adjustmentIdentifier1 : Option String
  providerAdjustmentAmount1 : Option String
  adjustmentIdentifier2 : Option String
  providerAdjustmentAmount2 : Option String
deriving DecidableEq, Repr

/-- N1 record built by the 835 `parseN1`; it only feeds the (never read)
current-provider pointer. -/
structure N1Entity where
  entityIdentifierCode : Option String
  name : Option String
  identificationCodeQualifier : Option String
  identificationCode : Option String
deriving DecidableEq, Repr

/-- Record built (and discarded) by `parseDTMService`; the dispatch case
for the tag `DTM_SVC` ignores its result. -/
structure ServiceDate where
  qualifier : Option String
  date : Option String
deriving DecidableEq, Repr

/-- CLP record built by `parseCLP`; the nested lists and adjudication
blocks start absent and are created by later CAS / NM1 / SVC / AMT / QTY /
MIA / MOA segments attaching through the current-claim pointer. -/
structure Claim where
  claimSubmitterIdentifier : Option String
  claimStatusCode : Option String
  totalClaimChargeAmount : Option String
  claimPaymentAmount : Option String
  patientResponsibilityAmount : Option String
  claimFilingIndicatorCode : Option String
  payerClaimControlNumber : Option String
  facilityTypeCode : Option String
  claimFrequencyCode : Option String
  services : Option (List Service) := none
  adjustments : Option (List CASAdjustment) := none
  entities : Option (List Entity) := none
  amounts : Option (List Amount) := none
  quantities : Option (List Quantity) := none
  inpatientAdjudication : Option InpatientAdjudication := none
  outpatientAdjudication : Option OutpatientAdjudication := none
deriving DecidableEq, Repr

/-- BPR record built by `parseBPR`. In the source the payment object later
holds an aliased `claims` array of the very claim objects that also sit in
the top-level `claims` list; here `claims` stores their indices into that
top-level list, which is the same sharing made explicit. -/
structure Payment where
  transactionHandlingCode : Option String
  totalPremiumPaymentAmount : Option String
  creditDebitFlag : Option String
  paymentMethodCode : Option String
  paymentFormatCode : Option String
  senderDFIIdQualifier : Option String
  senderDFIId : Option String
  senderAccountQualifier : Option String
  senderAccountNumber : Option String
  originatingCompanyId : Option String
  originatingCompanySupplementalCode : Option String
  receiverDFIIdQualifier : Option String
  receiverDFIId : Option String
  receiverAccountQualifier : Option String
  receiverAccountNumber : Option String
  effectiveEntryDate : Option String
  traceNumber : Option TraceNumber := none
  dates : Option (List DateInfo) := none
  claims : Option (List Nat) := none
deriving DecidableEq, Repr

/-- Output tree of the 835 parser (`this.parsedData`); here `parse`
initializes every top-level list to the empty array before dispatch. -/
structure Data where
  interchange : Option Interchange := none
  groups : List Group := []
  payments : List Payment := []
  claims : List Claim := []
  services : List Service := []
  adjustments : List PLBAdjustment := []
  references : List Reference := []
  contacts : List Contact := []
  addresses : List Address := []
  transactionSet : Option TransactionSet := none
  transactionSetTrailer : Option TransactionSetTrailer := none
  functionalGroupTrailer : Option FunctionalGroupTrailer := none
  interchangeTrailer : Option InterchangeTrailer := none
deriving DecidableEq, Repr

/-- Walk state of the 835 `parseSegments`: the tree plus the context
pointers (`currentPayment` and `currentClaim` as indices into the tree's
lists; `currentProvider` holds the last N1 record, which the source
assigns but never reads). -/
structure State where
  data : Data := {}
  currentPayment : Option Nat := none
  currentClaim : Option Nat := none
  currentProvider : Option N1Entity := none
deriving DecidableEq, Repr

/-- `parseISA` of EDI835Parser (same field layout as the 837 one). -/
def parseISA (es : List String) : Interchange where
  authorizationQualifier := elem es 1
  authorizationInfo := elem es 2
  securityQualifier := elem es 3
  securityInfo := elem es 4
  senderQualifier := elem es 5
  senderId := elem es 6
  receiverQualifier := elem es 7
  receiverId := elem es 8
  date := elem es 9
  time := elem es 10
  repetitionSeparator := elem es 11
  versionNumber := elem es 12
  controlNumber := elem es 13
  acknowledgmentRequested := elem es 14
  testIndicator := elem es 15

/-- `parseGS` of EDI835Parser. -/
def parseGS (es : List String) : Group where
  functionalCode := elem es 1
  applicationSender := elem es 2
  applicationReceiver := elem es 3
  date := elem es 4
  time := elem es 5
  controlNumber := elem es 6
  responsibleAgency := elem es 7
  version := elem es 8

/-- `parseST` of EDI835Parser. -/
def parseST (es : List String) : TransactionSet where
  type := elem es 1
  controlNumber := elem es 2
  implementationGuide := elem es 3

/-- `parseBPR` of EDI835Parser. -/
def parseBPR (es : List String) : Payment where
  transactionHandlingCode := elem es 1
  totalPremiumPaymentAmount := elem es 2
  creditDebitFlag := elem es 3
  paymentMethodCode := elem es 4
  paymentFormatCode := elem es 5
  senderDFIIdQualifier := elem es 6
  senderDFIId := elem es 7
  senderAccountQualifier := elem es 8
  senderAccountNumber := elem es 9
  originatingCompanyId := elem es 10
  originatingCompanySupplementalCode := elem es 11
  receiverDFIIdQualifier := elem es 12
  receiverDFIId := elem es 13
  receiverAccountQualifier := elem es 14
  receiverAccountNumber := elem es 15
  effectiveEntryDate := elem es 16

/-- `parseTRN` of EDI835Parser, as the mutation of the payment it is
given. -/
def parseTRN (es : List String) (payment : Payment) : Payment :=
  { payment with
    traceNumber := some
      { traceTypeCode := elem es 1
        traceNumber := elem es 2
        originatingCompanyId := elem es 3
        referenceId := elem es 4 } }

/-- `parseREF` of EDI835Parser. -/
def parseREF (es : List String) : Reference where
  qualifierCode := elem es 1
  referenceId := elem es 2
  description := elem es 3

/-- `parseDTM` of EDI835Parser (record only; the attach to the current
payment is in the step). -/
def parseDTM (es : List String) : DateInfo where
  qualifier := elem es 1
  date := elem es 2
  time := elem es 3
  timeCode := elem es 4

/-- `parseN1` of EDI835Parser. -/
def parseN1 (es : List String) : N1Entity where
  entityIdentifierCode := elem es 1
  name := elem es 2
  identificationCodeQualifier := elem es 3
  identificationCode := elem es 4

/-- `parseN3` of EDI835Parser. -/
def parseN3 (es : List String) : Address where
  addressLine1 := elem es 1
  addressLine2 := elem es 2

/-- `parseN4` of EDI835Parser, as the mutation of the last address. -/
def parseN4 (es : List String) (a : Address) : Address :=
  { a with
    city := elem es 1
    state := elem es 2
    postalCode := elem es 3
    countryCode := elem es 4 }

/-- `parsePER` of EDI835Parser. -/
def parsePER (es : List String) : Contact where
  contactFunctionCode := elem es 1
  name := elem es 2
  communicationNumberQualifier1 := elem es 3
  communicationNumber1 := elem es 4
  communicationNumberQualifier2 := elem es 5
  communicationNumber2 := elem es 6

/-- `parseCLP` of EDI835Parser. -/
def parseCLP (es : List String) : Claim where
  claimSubmitterIdentifier := elem es 1
  claimStatusCode := elem es 2
  totalClaimChargeAmount := elem es 3
  claimPaymentAmount := elem es 4
  patientResponsibilityAmount := elem es 5
  claimFilingIndicatorCode := elem es 6
  payerClaimControlNumber := elem es 7
  facilityTypeCode := elem es 8
  claimFrequencyCode := elem es 9

/-- `parseCAS` of EDI835Parser (record only; attaching is in the step). -/
def parseCAS (es : List String) : CASAdjustment where
  claimAdjustmentGroupCode := elem es 1
  adjustmentReasonCode1 := elem es 2
  adjustmentAmount1 := elem es 3
  adjustmentQuantity1 := elem es 4
  adjustmentReasonCode2 := elem es 5
  adjustmentAmount2 := elem es 6
  adjustmentQuantity2 := elem es 7

/-- `parseNM1` of EDI835Parser (record only; attaching is in the step). -/
def parseNM1 (es : List String) : Entity where
  entityIdentifierCode := elem es 1
  entityTypeQualifier := elem es 2
  lastName := elem es 3
  firstName := elem es 4
  middleName := elem es 5
  namePrefix := elem es 6
  nameSuffix := elem es 7
  identificationCodeQualifier := elem es 8
  identificationCode := elem es 9

/-- `parseMIA` of EDI835Parser, as the mutation of the claim it is
given. -/
def parseMIA (es : List String) (claim : Claim) : Claim :=
  { claim with
    inpatientAdjudication := some
      { coveredDays := elem es 1
        ppsOperatingOutlierAmount := elem es 2
        lifetimeReserveDays := elem es 3
        coinsuranceDays := elem es 4
        nonCoveredDays := elem es 5
        totalDeductibleAmount := elem es 6
        totalCoinsuranceAmount := elem es 7
        accommodationTotalAmount := elem es 8
        otherMedicalServiceTotalAmount := elem es 9 } }

/-- `parseMOA` of EDI835Parser, as the mutation of the claim it is
given. -/
def parseMOA (es : List String) (claim : Claim) : Claim :=
  { claim with
    outpatientAdjudication := some
      { reimbursementRate := elem es 1
        hcpcsPayableAmount := elem es 2
        remarkCode1 := elem es 3
        remarkCode2 := elem es 4
        remarkCode3 := elem es 5
        remarkCode4 := elem es 6
        remarkCode5 := elem es 7
        endStageRenalDiseasePaymentAmount := elem es 8
        nonPayableProfessionalComponentBilledAmount := elem es 9 } }

/-- `parseSVC` of EDI835Parser. -/
def parseSVC (es : List String) : Service where
  serviceCode := elem es 1
  chargeAmount := elem es 2
  paymentAmount := elem es 3
  revenueCode := elem es 4
  paidUnits := elem es 5
  bundledUnits := elem es 6

/-- `parseDTMService` of EDI835Parser; its result is discarded by the
dispatch. -/
def parseDTMService (es : List String) : ServiceDate where
  qualifier := elem es 1
  date := elem es 2

/-- `parseAMT` of EDI835Parser (record only; attaching is in the step). -/
def parseAMT (es : List String) : Amount where
  amountQualifierCode := elem es 1
  monetaryAmount := elem es 2

/-- `parseQTY` of EDI835Parser (record only; attaching is in the step). -/
def parseQTY (es : List String) : Quantity where
  quantityQualifier := elem es 1
  quantity := elem es 2

/-- `parsePLB` of EDI835Parser. -/
def parsePLB (es : List String) : PLBAdjustment where
  providerIdentifier := elem es 1
  fiscalPeriodDate := elem es 2
  adjustmentIdentifier1 := elem es 3
  providerAdjustmentAmount1 := elem es 4
  adjustmentIdentifier2 := elem es 5
  providerAdjustmentAmount2 := elem es 6

/-- `parseSE` of EDI835Parser. -/
def parseSE (es : List String) : TransactionSetTrailer where
  segmentCount := elem es 1
  controlNumber := elem es 2

/-- `parseGE` of EDI835Parser. -/
def parseGE (es : List String) : FunctionalGroupTrailer where
  transactionSetCount := elem es 1
  controlNumber := elem es 2

/-- `parseIEA` of EDI835Parser. -/
def parseIEA (es : List String) : InterchangeTrailer where
  groupCount := elem es 1
  controlNumber := elem es 2

/-- One iteration of the `switch` of the 835 `parseSegments`. DTM goes to
the current payment (not the current claim); CLP pushes the claim into the
top-level list and, when a payment is current, also records it (by index)
under that payment; the `DTM_SVC` case discards the record it builds. -/
def dispatch (segmentId : String) (es : List String) (st : State) : State :=
  match segmentId with
  | "ISA" => { st with data := { st.data with interchange := some (parseISA es) } }
  | "GS" => { st with data := { st.data with groups := st.data.groups ++ [parseGS es] } }
  | "ST" => { st with data := { st.data with transactionSet := some (parseST es) } }
  | "BPR" =>
    { st with
      data := { st.data with payments := st.data.payments ++ [parseBPR es] }
      currentPayment := some st.data.payments.length }
  | "TRN" =>
    match st.currentPayment with
    | some i => { st with data := { st.data with payments := modifyIdx (parseTRN es) i st.data.payments } }
    | none => st
  | "REF" => { st with data := { st.data with references := st.data.references ++ [parseREF es] } }
  | "DTM" =>
    match st.currentPayment with
    | some i =>
      let f := fun p => { p with dates := some (p.dates.getD [] ++ [parseDTM es]) }
      { st with data := { st.data with payments := modifyIdx f i st.data.payments } }
    | none => st
  | "N1" => { st with currentProvider := some (parseN1 es) }
  | "N3" => { st with data := { st.data with addresses := st.data.addresses ++ [parseN3 es] } }
  | "N4" => { st with data := { st.data with addresses := modifyLast (parseN4 es) st.data.addresses } }
  | "PER" => { st with data := { st.data with contacts := st.data.contacts ++ [parsePER es] } }
  | "CLP" =>
    let c := parseCLP es
    let idx := st.data.claims.length
    let d := { st.data with claims := st.data.claims ++ [c] }
    match st.currentPayment with
    | some j =>
      let f := fun p => { p with claims := some (p.claims.getD [] ++ [idx]) }
      { st with
        data := { d with payments := modifyIdx f j d.payments }
        currentClaim := some idx }
    | none => { st with data := d, currentClaim := some idx }
  | "CAS" =>
    match st.currentClaim with
    | some i =>
      let f := fun c => { c with adjustments := some (c.adjustments.getD [] ++ [parseCAS es]) }
      { st with data := { st.data with claims := modifyIdx f i st.data.claims } }
    | none => st
  | "NM1" =>
    match st.currentClaim with
    | some i =>
      let f := fun c => { c with entities := some (c.entities.getD [] ++ [parseNM1 es]) }
      { st with data := { st.data with claims := modifyIdx f i st.data.claims } }
    | none => st
  | "MIA" =>
    match st.currentClaim with
    | some i => { st with data := { st.data with claims := modifyIdx (parseMIA es) i st.data.claims } }
    | none => st
  | "MOA" =>
    match st.currentClaim with
    | some i => { st with data := { st.data with claims := modifyIdx (parseMOA es) i st.data.claims } }
    | none => st
  | "SVC" =>
    let service := parseSVC es
    let d := { st.data with services := st.data.services ++ [service] }
    match st.currentClaim with
    | some i =>
      let f := fun c => { c with services := some (c.services.getD [] ++ [service]) }
      { st with data := { d with claims := modifyIdx f i d.claims } }
    | none => { st with data := d }
  | "DTM_SVC" => st
  | "AMT" =>
    match st.currentClaim with
    | some i =>
      let f := fun c => { c with amounts := some (c.amounts.getD [] ++ [parseAMT es]) }
      { st with data := { st.data with claims := modifyIdx f i st.data.claims } }
    | none => st
  | "QTY" =>
    match st.currentClaim with
    | some i =>
      let f := fun c => { c with quantities := some (c.quantities.getD [] ++ [parseQTY es]) }
      { st with data := { st.data with claims := modifyIdx f i st.data.claims } }
    | none => st
  | "PLB" => { st with data := { st.data with adjustments := st.data.adjustments ++ [parsePLB es] } }
  | "SE" => { st with data := { st.data with transactionSetTrailer := some (parseSE es) } }
  | "GE" => { st with data := { st.data with functionalGroupTrailer := some (parseGE es) } }
  | "IEA" => { st with data := { st.data with interchangeTrailer := some (parseIEA es) } }
  | _ => st

/-- One loop iteration of the 835 `parseSegments`. -/
def step (st : State) (segment : String) : State :=
  dispatch ((elems segment).headD "") (elems segment) st

/-- The 835 `parseSegments`: walk the segment list in order. -/
def parseSegments (segments : List String) : State :=
  segments.foldl step {}

/-- `parse` of EDI835Parser; same error shape as the 837 one. -/
def parse (ediData : String) : Except String Data :=
  let segments := splitSegments (cleanData ediData)
  if segments.isEmpty then
    Except.error "Parsing failed: No valid EDI segments found"
  else
    Except.ok (parseSegments segments).data

/-- Instance-level view of EDI835Parser, as for the 837 parser. -/
structure Instance where
  segments : List String := []
  parsedData : Option Data := none
deriving DecidableEq, Repr

/-- The 835 `parse` as a method on its instance. -/
def parseOn (inst : Instance) (ediData : String) : Instance × Except String Data :=
  let segments := splitSegments (cleanData ediData)
  if segments.isEmpty then
    ({ inst with segments := segments }, Except.error "Parsing failed: No valid EDI segments found")
  else
    let st := parseSegments segments
    ({ segments := segments, parsedData := some st.data }, Except.ok st.data)

end EDI835

namespace EDI

theorem getElem?_modifyIdx (f : α → α) (i : Nat) (l : List α) :
    (modifyIdx f i l)[i]? = (l[i]?).map f := by
  induction l generalizing i with
  | nil => cases i <;> simp [modifyIdx]
  | cons a l ih =>
    cases i with
    | zero => simp [modifyIdx]
    | succ n => simpa [modifyIdx] using ih n

theorem map_modifyIdx (g : α → β) (f : α → α) (h : ∀ a, g (f a) = g a) (i : Nat)
    (l : List α) : (modifyIdx f i l).map g = l.map g := by
  induction l generalizing i with
  | nil => cases i <;> rfl
  | cons a l ih =>
    cases i with
    | zero => simp [modifyIdx, h]
    | succ n => simp [modifyIdx, ih n]

theorem map_modifyLast (g : α → β) (f : α → α) (h : ∀ a, g (f a) = g a) :
    ∀ l : List α, (modifyLast f l).map g = l.map g
  | [] => rfl
  | [a] => by simp [modifyLast, h]
  | a :: b :: l => by
    simpa [modifyLast] using map_modifyLast g f h (b :: l)

end EDI

open EDI

/-- Claim C2: on the Scenario A input, the 837 parser returns exactly one
claim, with claimId `CLAIM001` and totalChargeAmount `150.00`, whose
nested services list holds exactly one service with serviceCode
`HC:99213` and chargeAmount `75.00`. -/
theorem C2_scenarioA :
    (EDI837.parse "ISA*...~GS*HC*...~ST*837*0001*...~CLM*CLAIM001*150.00~SV1*HC:99213*75.00*UN*1~SE*30*0001~GE*1*1~IEA*1*000000001~").map
      (fun d => d.claims.map (fun c => (c.claimId, c.totalChargeAmount,
        (c.services.getD []).map (fun s => (s.serviceCode, s.chargeAmount))))) =
    Except.ok [(some "CLAIM001", some "150.00", [(some "HC:99213", some "75.00")])] := rfl

/-- Claim C3: on the Scenario C input, the 835 parser returns a claim with
claimPaymentAmount `125.00`, exactly one adjustment with reason code `45`
and amount `25.00`, and exactly one nested service with paymentAmount
`65.00`. -/
theorem C3_scenarioC :
    (EDI835.parse "CLP*CLAIM001*1*150.00*125.00*25.00*MC*PAY001*11~CAS*CO*45*25.00~SVC*HC:99213*75.00*65.00**1~").map
      (fun d => d.claims.map (fun c => (c.claimPaymentAmount,
        (c.adjustments.getD []).map (fun a => (a.adjustmentReasonCode1, a.adjustmentAmount1)),
        (c.services.getD []).map (fun s => s.paymentAmount)))) =
    Except.ok [(some "125.00", [(some "45", some "25.00")], [some "65.00"])] := rfl

/-- Claim C1 (code bug): the entity-type table does resolve `85`, `82`,
`77` and `DN` to the provider roles, but the NM1 dispatch pushes an
entity to `providers` (and makes it the current provider) only when the
resolved type is the literal string `provider`, which the table never
produces — so on `NM1*85*...~PRV*...` the providers list stays empty, no
current provider is set, and the PRV attaches to nothing. -/
theorem C1_provider_nm1_dropped :
    EDI837.getEntityType (some "85") = some "billing_provider" ∧
    EDI837.getEntityType (some "82") = some "rendering_provider" ∧
    EDI837.getEntityType (some "77") = some "service_facility" ∧
    EDI837.getEntityType (some "DN") = some "referring_provider" ∧
    (EDI837.parse "NM1*85*2*ACME MEDICAL~PRV*BI*PXC*207Q00000X").map (fun d => d.providers) =
      Except.ok [] ∧
    (EDI837.parseSegments ["NM1*85*2*ACME MEDICAL"]).currentProvider = none ∧
    (EDI837.parse "NM1*82*1*JONES~NM1*77*2*CLINIC~NM1*DN*1*SMITH").map (fun d => d.providers) =
      Except.ok [] :=
  ⟨rfl, rfl, rfl, rfl, rfl, rfl, rfl⟩

/-- Claim C4 (corrected): an input with no non-empty segments after
cleaning makes both parsers fail with no tree, but the thrown message is
the wrapped `Parsing failed: No valid EDI segments found` (the
empty-payload throw happens inside the `try`, so the `catch` rewraps it),
not the bare `No valid EDI segments found` of the claim. This theorem is
the amended claim: any input that cleans to zero segments yields exactly
that wrapped error on either parser. -/
theorem C4_empty_input_wrapped_error (s : String)
    (h : splitSegments (cleanData s) = []) :
    EDI837.parse s = Except.error "Parsing failed: No valid EDI segments found" ∧
    EDI835.parse s = Except.error "Parsing failed: No valid EDI segments found" := by
  constructor <;> simp [EDI837.parse, EDI835.parse, h]

/-- Witness for C4: the Scenario D input `"   "` cleans to zero segments
and both parsers produce the wrapped error on it. -/
theorem C4_empty_input_wrapped_error_witness :
    splitSegments (cleanData "   ") = [] ∧
    (EDI837.parse "   " = Except.error "Parsing failed: No valid EDI segments found" ∧
     EDI835.parse "   " = Except.error "Parsing failed: No valid EDI segments found") :=
  ⟨rfl, C4_empty_input_wrapped_error "   " rfl⟩

/-- Counterexample for C4: on `"   "` the user-facing message carries the
`Parsing failed: ` prefix, so it is not exactly
`No valid EDI segments found` as the claim states. -/
theorem C4_cex :
    EDI837.parse "   " = Except.error "Parsing failed: No valid EDI segments found" ∧
    "Parsing failed: No valid EDI segments found" ≠ "No valid EDI segments found" :=
  ⟨rfl, by decide⟩

/-- Counterexample for C5: with the sub-element delimiter `^` in the HI
composite (`BK^Z8701`), the handler does not split it — the whole field
becomes the codeQualifier and the code is absent — contradicting the
claim that the part before `^` becomes codeQualifier and the part after
it the code. -/
theorem C5_cex :
    (EDI837.parse "CLM*C1~HI*BK^Z8701").map
      (fun d => d.claims.map (fun c => (c.healthInfo.getD []).map (fun h => (h.codeQualifier, h.code)))) =
      Except.ok [[(some "BK^Z8701", none)]] ∧
    (some "BK^Z8701", (none : Option String)) ≠ (some "BK", some "Z8701") :=
  ⟨rfl, by decide⟩

/-- Claim C5 (corrected): the HI handler splits the composite second field
on `:` (a colon), not on the `^` sub-element delimiter: `parseHI` on
`HI*BK:Z8701` yields qualifier `BK` and code `Z8701`, and whenever a
current claim is set the resulting healthInfo entry is appended to that
claim. -/
theorem C5_hi_splits_on_colon :
    EDI837.parseHI ["HI", "BK:Z8701"] =
      { codeQualifier := some "BK", code := some "Z8701", dateQualifier := none, date := none } ∧
    (∀ (st : EDI837.State) (es : List String) (i : Nat) (c : EDI837.Claim),
      st.currentClaim = some i → st.data.claims[i]? = some c →
      (EDI837.dispatch "HI" es st).data.claims[i]? =
        some { c with healthInfo := some (c.healthInfo.getD [] ++ [EDI837.parseHI es]) }) ∧
    (EDI837.parse "CLM*C1~HI*BK:Z8701").map
      (fun d => d.claims.map (fun c => (c.healthInfo.getD []).map (fun h => (h.codeQualifier, h.code)))) =
      Except.ok [[(some "BK", some "Z8701")]] := by
  refine ⟨rfl, ?_, rfl⟩
  intro st es i c h1 h2
  have hd : EDI837.dispatch "HI" es st =
      { st with data := { st.data with claims := (modifyIdx
          (fun cl => { cl with healthInfo := some (cl.healthInfo.getD [] ++ [EDI837.parseHI es]) })
          i st.data.claims) } } := by
    unfold EDI837.dispatch
    rw [h1]
    rfl
  rw [hd]
  simp [getElem?_modifyIdx, h2]

/-- Witness for C5: in the state reached after `CLM*C1`, dispatching the
segment `HI*BK:Z8701` appends the colon-split entry to claim 0. -/
theorem C5_hi_splits_on_colon_witness :
    (EDI837.parseSegments ["CLM*C1"]).currentClaim = some 0 ∧
    (EDI837.dispatch "HI" ["HI", "BK:Z8701"] (EDI837.parseSegments ["CLM*C1"])).data.claims[0]? =
      some { EDI837.parseCLM (elems "CLM*C1") with healthInfo := (some
        ((EDI837.parseCLM (elems "CLM*C1")).healthInfo.getD [] ++ [EDI837.parseHI ["HI", "BK:Z8701"]])) } :=
  ⟨rfl, C5_hi_splits_on_colon.2.1 (EDI837.parseSegments ["CLM*C1"]) ["HI", "BK:Z8701"] 0
    (EDI837.parseCLM (elems "CLM*C1")) rfl rfl⟩

/-- Counterexample for C6: a DTM arriving after `BPR` and `CLP` (current
claim set) leaves every claim untouched — the parse with and without the
DTM segment returns identical claims lists — while the date lands in the
current payment's dates list; the claim said the claim owns it. -/
theorem C6_cex :
    (EDI835.parse "BPR*I*150.00~CLP*CLAIM001*1*150.00*125.00~DTM*232*20230101").map
      (fun d => d.claims) =
    (EDI835.parse "BPR*I*150.00~CLP*CLAIM001*1*150.00*125.00").map (fun d => d.claims) ∧
    (EDI835.parse "BPR*I*150.00~CLP*CLAIM001*1*150.00*125.00~DTM*232*20230101").map
      (fun d => d.payments.map (fun p => (p.dates.getD []).map (fun x => x.date))) =
      Except.ok [[some "20230101"]] :=
  ⟨rfl, rfl⟩

/-- Claim C6 (corrected): in the 835 parser a DTM is attached to the
current payment, not to the current claim: with a current payment set the
parsed date record is appended to that payment's dates list and the
claims list is unchanged, and with no current payment the DTM has no
effect at all — the claim never owns DTM dates. -/
theorem C6_dtm_attaches_to_payment :
    (∀ (st : EDI835.State) (es : List String) (i : Nat) (p : EDI835.Payment),
      st.currentPayment = some i → st.data.payments[i]? = some p →
      (EDI835.dispatch "DTM" es st).data.payments[i]? =
        some { p with dates := some (p.dates.getD [] ++ [EDI835.parseDTM es]) } ∧
      (EDI835.dispatch "DTM" es st).data.claims = st.data.claims) ∧
    (∀ (st : EDI835.State) (es : List String),
      st.currentPayment = none → EDI835.dispatch "DTM" es st = st) := by
  constructor
  · intro st es i p h1 h2
    have hd : EDI835.dispatch "DTM" es st =
        { st with data := { st.data with payments := (modifyIdx
            (fun q => { q with dates := some (q.dates.getD [] ++ [EDI835.parseDTM es]) })
            i st.data.payments) } } := by
      unfold EDI835.dispatch
      rw [h1]
      rfl
    rw [hd]
    exact ⟨by simp [getElem?_modifyIdx, h2], rfl⟩
  · intro st es h1
    unfold EDI835.dispatch
    rw [h1]
    rfl

/-- Witness for C6: in the state reached after `BPR*I*150.00`, dispatching
`DTM*232*20230101` appends the date to payment 0 and leaves the claims
list unchanged; with the fresh (no payment) state the DTM is a no-op. -/
theorem C6_dtm_attaches_to_payment_witness :
    ((EDI835.dispatch "DTM" ["DTM", "232", "20230101"] (EDI835.parseSegments ["BPR*I*150.00"])).data.payments[0]? =
      some { EDI835.parseBPR (elems "BPR*I*150.00") with dates := (some
        ((EDI835.parseBPR (elems "BPR*I*150.00")).dates.getD [] ++ [EDI835.parseDTM ["DTM", "232", "20230101"]])) } ∧
    (EDI835.dispatch "DTM" ["DTM", "232", "20230101"] (EDI835.parseSegments ["BPR*I*150.00"])).data.claims =
      (EDI835.parseSegments ["BPR*I*150.00"]).data.claims) ∧
    EDI835.dispatch "DTM" ["DTM", "232", "20230101"] {} = {} :=
  ⟨C6_dtm_attaches_to_payment.1 (EDI835.parseSegments ["BPR*I*150.00"]) ["DTM", "232", "20230101"] 0
    (EDI835.parseBPR (elems "BPR*I*150.00")) rfl rfl,
   C6_dtm_attaches_to_payment.2 {} ["DTM", "232", "20230101"] rfl⟩

/-- Claim C8: DMG routing — with a current subscriber set the
demographics go to that subscriber (unconditionally in the current
patient, so also when one is set), with only a current patient set they
go to the patient, with neither the segment is a no-op; and Scenario B
(`NM1*IL*1*SMITH*JOHN` then `DMG*D8*19800101*M`) yields one subscriber
SMITH/JOHN with birthDate `19800101`. -/
theorem C8_dmg_routing :
    (∀ (st : EDI837.State) (es : List String) (i : Nat) (s : EDI837.Entity),
      st.currentSubscriber = some i → st.data.subscribers[i]? = some s →
      (EDI837.dispatch "DMG" es st).data.subscribers[i]? = some (EDI837.parseDMG es s) ∧
      (EDI837.dispatch "DMG" es st).data.patients = st.data.patients) ∧
    (∀ (st : EDI837.State) (es : List String) (j : Nat) (p : EDI837.Entity),
      st.currentSubscriber = none → st.currentPatient = some j →
      st.data.patients[j]? = some p →
      (EDI837.dispatch "DMG" es st).data.patients[j]? = some (EDI837.parseDMG es p) ∧
      (EDI837.dispatch "DMG" es st).data.subscribers = st.data.subscribers) ∧
    (∀ (st : EDI837.State) (es : List String),
      st.currentSubscriber = none → st.currentPatient = none →
      EDI837.dispatch "DMG" es st = st) ∧
    (EDI837.parse "NM1*IL*1*SMITH*JOHN~DMG*D8*19800101*M").map
      (fun d => d.subscribers.map (fun e => (e.lastName, e.firstName, e.demographics.map (fun g => g.birthDate)))) =
      Except.ok [(some "SMITH", some "JOHN", some (some "19800101"))] := by
  refine ⟨?_, ?_, ?_, rfl⟩
  · intro st es i s h1 h2
    have hd : EDI837.dispatch "DMG" es st =
        { st with data := { st.data with subscribers := (modifyIdx
            (EDI837.parseDMG es) i st.data.subscribers) } } := by
      unfold EDI837.dispatch
      rw [h1]
      rfl
    rw [hd]
    exact ⟨by simp [getElem?_modifyIdx, h2], rfl⟩
  · intro st es j p h1 h1' h2
    have hd : EDI837.dispatch "DMG" es st =
        { st with data := { st.data with patients := (modifyIdx
            (EDI837.parseDMG es) j st.data.patients) } } := by
      unfold EDI837.dispatch
      rw [h1, h1']
      rfl
    rw [hd]
    exact ⟨by simp [getElem?_modifyIdx, h2], rfl⟩
  · intro st es h1 h1'
    unfold EDI837.dispatch
    rw [h1, h1']
    rfl

/-- Witness for C8: in the state reached after `NM1*IL*1*SMITH*JOHN` (a
current subscriber at index 0, no patient), dispatching `DMG*D8*19800101*M`
writes the demographics onto subscriber 0 and leaves patients unchanged;
on the fresh state the same DMG is a no-op. -/
theorem C8_dmg_routing_witness :
    ((EDI837.dispatch "DMG" ["DMG", "D8", "19800101", "M"] (EDI837.parseSegments ["NM1*IL*1*SMITH*JOHN"])).data.subscribers[0]? =
      some (EDI837.parseDMG ["DMG", "D8", "19800101", "M"] (EDI837.parseNM1 (elems "NM1*IL*1*SMITH*JOHN"))) ∧
    (EDI837.dispatch "DMG" ["DMG", "D8", "19800101", "M"] (EDI837.parseSegments ["NM1*IL*1*SMITH*JOHN"])).data.patients =
      (EDI837.parseSegments ["NM1*IL*1*SMITH*JOHN"]).data.patients) ∧
    EDI837.dispatch "DMG" ["DMG", "D8", "19800101", "M"] {} = {} :=
  ⟨C8_dmg_routing.1 (EDI837.parseSegments ["NM1*IL*1*SMITH*JOHN"]) ["DMG", "D8", "19800101", "M"] 0
    (EDI837.parseNM1 (elems "NM1*IL*1*SMITH*JOHN")) rfl rfl,
   C8_dmg_routing.2.2.1 {} ["DMG", "D8", "19800101", "M"] rfl rfl⟩

namespace EDI

theorem prefix_map_append (g : α → β) (l : List α) (x : α) :
    l.map g <+: (l ++ [x]).map g := by
  rw [List.map_append]
  exact List.prefix_append _ _

theorem prefix_map_modifyIdx (g : α → β) (f : α → α) (h : ∀ a, g (f a) = g a)
    (i : Nat) (l : List α) : l.map g <+: (modifyIdx f i l).map g := by
  rw [map_modifyIdx g f h i l]

theorem prefix_map_modifyLast (g : α → β) (f : α → α) (h : ∀ a, g (f a) = g a)
    (l : List α) : l.map g <+: (modifyLast f l).map g := by
  rw [map_modifyLast g f h l]

theorem prefix_getD_map_modifyLast (g : α → β) (f : α → α) (h : ∀ a, g (f a) = g a)
    (o : Option (List α)) :
    (o.getD []).map g <+: ((o.map (modifyLast f)).getD []).map g := by
  cases o with
  | none => exact List.prefix_rfl
  | some l =>
    simp [map_modifyLast g f h]

end EDI

/-- Claim C9: parse never propagates a per-segment failure — every input
with at least one non-empty segment parses to a tree on both decoders
(the modelled handlers are total, mirroring the JS handlers whose
positional reads of short element arrays produce `undefined` instead of
throwing), and concretely the short segments `CLM` and `SV1` yield
records whose positional fields are all absent while the following
`ST*837` segment is still processed and the earlier records stay in the
tree. -/
theorem C9_tolerance :
    (∀ s : String, splitSegments (cleanData s) ≠ [] →
      (∃ d, EDI837.parse s = Except.ok d) ∧ (∃ d, EDI835.parse s = Except.ok d)) ∧
    (EDI837.parse "CLM~SV1~ST*837").map (fun d => (d.claims, d.services, d.transactionSet)) =
      Except.ok ([{ claimId := none, totalChargeAmount := none, placeOfService := none, providerSignatureIndicator := none, assignmentOfBenefitsIndicator := none, releaseOfInformationIndicator := none, patientSignatureSourceCode := none, services := some [{ serviceCode := none, chargeAmount := none, unitOfMeasure := none, serviceUnits := none, placeOfService := none, diagnosisPointer := none }], dates := none, healthInfo := none }], [{ serviceCode := none, chargeAmount := none, unitOfMeasure := none, serviceUnits := none, placeOfService := none, diagnosisPointer := none }], some { type := some "837", controlNumber := none, implementationGuide := none }) := by
  refine ⟨?_, rfl⟩
  intro s h
  rcases e : splitSegments (cleanData s) with _ | ⟨a, t⟩
  · exact absurd e h
  · refine ⟨⟨(EDI837.parseSegments (a :: t)).data, ?_⟩,
      ⟨(EDI835.parseSegments (a :: t)).data, ?_⟩⟩ <;>
      simp [EDI837.parse, EDI835.parse, e]

/-- Witness for C9: the one-segment input `CLM` parses to a tree on both
decoders. -/
theorem C9_tolerance_witness :
    (∃ d, EDI837.parse "CLM" = Except.ok d) ∧ (∃ d, EDI835.parse "CLM" = Except.ok d) :=
  C9_tolerance.1 "CLM" (by decide)

/-- Claim C10: parse is history-insensitive and deterministic — on either
parser instance the result of a call depends only on the input string
(the instance state left by any earlier call never reaches the result),
so back-to-back calls on the same input return structurally identical
trees. -/
theorem C10_history_insensitive :
    (∀ (inst : EDI837.Instance) (x : String), (EDI837.parseOn inst x).2 = EDI837.parse x) ∧
    (∀ (inst : EDI835.Instance) (x : String), (EDI835.parseOn inst x).2 = EDI835.parse x) := by
  constructor
  · intro inst x
    unfold EDI837.parseOn EDI837.parse
    by_cases h : (splitSegments (cleanData x)).isEmpty <;> simp [h]
  · intro inst x
    unfold EDI835.parseOn EDI835.parse
    by_cases h : (splitSegments (cleanData x)).isEmpty <;> simp [h]

/-- Counterexample for C7: in the 837 parser the `references`, `contacts`
and `addresses` lists are not initialized before dispatch — after parsing
an input with no REF/PER/N3 segment they are absent (`none`), not the
empty list — and a claim's nested `services` list is likewise absent
until the first SV1 attaches to it. -/
theorem C7_cex :
    (EDI837.parse "ISA*00").map (fun d => (d.references, d.contacts, d.addresses)) =
      Except.ok (none, none, none) ∧
    (EDI837.parse "CLM*C1").map (fun d => d.claims.map (fun c => c.services)) =
      Except.ok [none] ∧
    (none : Option (List Reference)) ≠ some [] :=
  ⟨rfl, rfl, by simp⟩

/-- Claim C7 (corrected): in the 835 parser every top-level list starts
empty before any segment is handled; in the 837 parser the six fixed
lists start empty while `references`, `contacts`, `addresses` (and the
nested per-claim/per-payment lists of both parsers) are created empty
only at the first segment that appends to them; and in both parsers
every step of the dispatcher only ever appends to these lists (entries
already present keep their position and identifying fields — a step may
mutate an entry in place through a context pointer but never reorders,
removes or resorts), so the lists are in segment-arrival order. -/
theorem C7_lists_init_and_append_only :
    ((EDI837.parseSegments []).data.groups = [] ∧
     (EDI837.parseSegments []).data.claims = [] ∧
     (EDI837.parseSegments []).data.providers = [] ∧
     (EDI837.parseSegments []).data.subscribers = [] ∧
     (EDI837.parseSegments []).data.patients = [] ∧
     (EDI837.parseSegments []).data.services = [] ∧
     (EDI837.parseSegments []).data.references = none ∧
     (EDI837.parseSegments []).data.contacts = none ∧
     (EDI837.parseSegments []).data.addresses = none) ∧
    ((EDI835.parseSegments []).data.groups = [] ∧
     (EDI835.parseSegments []).data.payments = [] ∧
     (EDI835.parseSegments []).data.claims = [] ∧
     (EDI835.parseSegments []).data.services = [] ∧
     (EDI835.parseSegments []).data.adjustments = [] ∧
     (EDI835.parseSegments []).data.references = [] ∧
     (EDI835.parseSegments []).data.contacts = [] ∧
     (EDI835.parseSegments []).data.addresses = []) ∧
    (∀ (st : EDI837.State) (seg : String),
      st.data.groups <+: (EDI837.step st seg).data.groups ∧
      st.data.services <+: (EDI837.step st seg).data.services ∧
      st.data.claims.map (fun c => c.claimId) <+: (EDI837.step st seg).data.claims.map (fun c => c.claimId) ∧
      st.data.subscribers.map (fun e => e.lastName) <+: (EDI837.step st seg).data.subscribers.map (fun e => e.lastName) ∧
      st.data.patients.map (fun e => e.lastName) <+: (EDI837.step st seg).data.patients.map (fun e => e.lastName) ∧
      st.data.providers.map (fun e => e.entityTypeCode) <+: (EDI837.step st seg).data.providers.map (fun e => e.entityTypeCode) ∧
      st.data.references.getD [] <+: (EDI837.step st seg).data.references.getD [] ∧
      st.data.contacts.getD [] <+: (EDI837.step st seg).data.contacts.getD [] ∧
      (st.data.addresses.getD []).map (fun a => a.addressLine1) <+: ((EDI837.step st seg).data.addresses.getD []).map (fun a => a.addressLine1)) ∧
    (∀ (st : EDI835.State) (seg : String),
      st.data.groups <+: (EDI835.step st seg).data.groups ∧
      st.data.services <+: (EDI835.step st seg).data.services ∧
      st.data.adjustments <+: (EDI835.step st seg).data.adjustments ∧
      st.data.references <+: (EDI835.step st seg).data.references ∧
      st.data.contacts <+: (EDI835.step st seg).data.contacts ∧
      st.data.claims.map (fun c => c.claimSubmitterIdentifier) <+: (EDI835.step st seg).data.claims.map (fun c => c.claimSubmitterIdentifier) ∧
      st.data.payments.map (fun p => p.totalPremiumPaymentAmount) <+: (EDI835.step st seg).data.payments.map (fun p => p.totalPremiumPaymentAmount) ∧
      st.data.addresses.map (fun a => a.addressLine1) <+: (EDI835.step st seg).data.addresses.map (fun a => a.addressLine1)) := by
  refine ⟨⟨rfl, rfl, rfl, rfl, rfl, rfl, rfl, rfl, rfl⟩,
    ⟨rfl, rfl, rfl, rfl, rfl, rfl, rfl, rfl⟩, ?_, ?_⟩
  · intro st seg
    unfold EDI837.step
    rw [EDI837.dispatch.eq_def]
    repeat' split
    all_goals try (dsimp only; repeat' split)
    all_goals
      refine ⟨?_, ?_, ?_, ?_, ?_, ?_, ?_, ?_, ?_⟩ <;>
        first
          | exact List.prefix_rfl
          | exact List.prefix_append _ _
          | exact prefix_map_append _ _ _
          | (refine prefix_map_modifyIdx _ _ ?_ _ _; intro a; rfl)
          | (refine prefix_getD_map_modifyLast _ _ ?_ _; intro a; rfl)
  · intro st seg
    unfold EDI835.step
    rw [EDI835.dispatch.eq_def]
    all_goals try (dsimp only; repeat' split)
    all_goals
      refine ⟨?_, ?_, ?_, ?_, ?_, ?_, ?_, ?_⟩ <;>
        first
          | exact List.prefix_rfl
          | exact List.prefix_append _ _
          | exact prefix_map_append _ _ _
          | (refine prefix_map_modifyIdx _ _ ?_ _ _; intro a; rfl)
          | (refine prefix_map_modifyLast _ _ ?_ _; intro a; rfl)
